import Mathlib

/-!
Shallow embedding of `src/ast.rs` of the `ecmascript` crate: the AST data
model for an ECMAScript-family language with a JSX extension.  The Rust
types all `#[derive(Debug, Clone, PartialEq)]`; we embed each type as a
Lean inductive/structure and embed the derived `PartialEq` as explicit
boolean equality functions (`exprBeq` etc.), since the `f64` payload of
`NumberLiteral` makes the derived Rust equality non-reflexive on NaN.
`Clone` on these inert value types is a deep copy that produces an equal
value; at the value level it is the identity function.
-/

namespace ES

/-- Model of Rust's `f64` restricted to what the AST uses: a carrier with a
NaN flag and, for non-NaN values, the represented extended-real value (a
rational is enough to carry every finite double; the two IEEE-754 zeros
compare equal under `==` and are identified here).  `F64.beq` is IEEE-754
`==` as Rust's derived `PartialEq` uses it: any comparison involving a NaN
is `false`, otherwise the represented values are compared. -/
structure F64 where
  isNaN : Bool
  val : Rat
deriving DecidableEq

/-- Rust `f64 == f64` (IEEE-754 equality): false whenever either side is
NaN, value comparison otherwise. -/
def F64.beq (a b : F64) : Bool :=
  !a.isNaN && !b.isNaN && decide (a.val = b.val)

/-- A NaN double (`f64::NAN`). -/
def F64.nan : F64 := ⟨true, 0⟩

/-- One non-NaN double, e.g. `1.0`. -/
def F64.one : F64 := ⟨false, 1⟩

/-- `pub struct NullLiteral;` — the unit struct for the `null` literal. -/
structure NullLiteral where
deriving DecidableEq

/-- `pub type BooleanLiteral = bool;` -/
abbrev BooleanLiteral := Bool

/-- `pub type NumberLiteral = f64;` -/
abbrev NumberLiteral := F64

/-- `pub type StringLiteral = String;` -/
abbrev StringLiteral := String

/-- `pub type Id = String;` -/
abbrev Id := String

/-- `pub struct RegexLiteral { pattern: String, flags: String }` -/
structure RegexLiteral where
  pattern : String
  flags : String
deriving DecidableEq

/-- `pub struct TemplateElement { cooked: String, raw: String }` -/
structure TemplateElement where
  cooked : String
  raw : String
deriving DecidableEq

/-- `pub enum ExpressionLiteral` — null/boolean/number/string literals
(regex and template literals are separate `Expression` variants). -/
inductive ExpressionLiteral where
  | NullLiteral (lit : NullLiteral)
  | BooleanLiteral (lit : BooleanLiteral)
  | NumberLiteral (lit : NumberLiteral)
  | StringLiteral (lit : StringLiteral)
deriving DecidableEq

/-- `pub enum PropertyKind { Init, Get, Set }` -/
inductive PropertyKind where
  | Init
  | Get
  | Set
deriving DecidableEq

/-- `pub enum UpdateOperator { Increment, Decrement }` -/
inductive UpdateOperator where
  | Increment
  | Decrement
deriving DecidableEq

/-- `pub enum UnaryOperator` — the seven unary operators. -/
inductive UnaryOperator where
  | Minus
  | Plus
  | Not
  | BitwiseNot
  | Typeof
  | Void
  | Delete
deriving DecidableEq

/-- `pub enum BinaryOperator` — all binary operators merged into one enum,
in source declaration order. -/
inductive BinaryOperator where
  | EqEq
  | NotEq
  | EqEqEq
  | NotEqEq
  | Lt
  | Lte
  | Gt
  | Gte
  | Shl
  | Shr
  | UnsignedShr
  | Plus
  | Minus
  | Multiply
  | Divide
  | Mod
  | BitwiseOr
  | Or
  | BitwiseXor
  | BitwiseAnd
  | And
  | In
  | InstanceOf
  | Exponentiation
deriving DecidableEq

/-- `pub enum AssignmentOperator` — plain `=` plus the compound assignment
operators, in source declaration order. -/
inductive AssignmentOperator where
  | Eq
  | PlusEq
  | MinusEq
  | MultiplyEq
  | DivideEq
  | ModEq
  | ShlEq
  | ShrEq
  | UnsignedShrEq
  | BitwiseOrEq
  | BitwiseXorEq
  | BitwiseAndEq
deriving DecidableEq

/-- `pub enum Statement {}` — declared with no variants in the source; the
embedding is the empty inductive type. -/
inductive Statement where
deriving DecidableEq

mutual

/-- `pub enum Expression` — every expression variant of `src/ast.rs`, in
source order, with `Box`/`Vec`/`Option` rendered as direct fields,
`List`, and `Option`. -/
inductive Expression where
  | This
  | IdReference (id : Id)
  | Literal (lit : ExpressionLiteral)
  | ArrayLiteral (elements : List Expression)
  | ObjectLiteral (properties : List Property)
  | Function (id : Option Id) (params : List Id) (body : List Statement)
      (async : Bool) (generator : Bool)
  | RegexLiteral (regex : RegexLiteral)
  | TemplateLiteral (elements : List TemplateLiteralElement)
  | Spread (argument : Expression)
  | Member (lhs : Expression) (rhs : Expression) (computed : Bool)
  | Super
  | MetaProperty
  | New (callee : Expression) (arguments : List Expression)
  | Call (callee : Expression) (arguments : List Expression)
  | TaggedTemplate (tag : Expression) (quasi : Expression)
  | Update (operator : UpdateOperator) (argument : Expression) ( isPrefix : Bool)
  | Unary (operator : UnaryOperator) (argument : Expression)
  | Binary (operator : BinaryOperator) (lhs : Expression) (rhs : Expression)
  | Conditional (test : Expression) (alternate : Expression) (consequent : Expression)
  | Assignment (operator : AssignmentOperator) (lhs : Expression) (rhs : Expression)
  | Yield (argument : Option Expression) (delegate : Bool)
  | Comma (expressions : List Expression)
  | JsxElement (name : String) (attributes : List JsxAttribute)
      (children : List Expression)
  | JsxFragment (children : List Expression)

/-- `pub struct Property { key: Expression, value: Expression, kind: PropertyKind }` -/
inductive Property where
  | mk (key : Expression) (value : Expression) (kind : PropertyKind)

/-- `pub enum TemplateLiteralElement` — either a literal span or an
interpolated expression, kept in source order. -/
inductive TemplateLiteralElement where
  | TemplateElement (element : TemplateElement)
  | Expression (expression : Expression)

/-- `pub enum JsxAttribute` — a spread attribute or a named
`key={value}` attribute with optional value. -/
inductive JsxAttribute where
  | JsxSpreadAttribute (expression : Expression)
  | JsxAttribute (name : String) (value : Option Expression)

end

/-- `pub enum SourceType { Script, Module }` -/
inductive SourceType where
  | Script
  | Module
deriving DecidableEq

/-- `pub struct Program { source_type: SourceType, body: Vec<Statement> }` -/
structure Program where
  source_type : SourceType
  body : List Statement

/-- Derived `PartialEq` on `ExpressionLiteral`: same tag and equal payload;
the `NumberLiteral` payload is compared with `f64` IEEE-754 equality. -/
def exprLiteralBeq : ExpressionLiteral → ExpressionLiteral → Bool
  | .NullLiteral _, .NullLiteral _ => true
  | .BooleanLiteral a, .BooleanLiteral b => decide (a = b)
  | .NumberLiteral a, .NumberLiteral b => F64.beq a b
  | .StringLiteral a, .StringLiteral b => decide (a = b)
  | _, _ => false

/-- Derived `PartialEq` on `Vec<Statement>`: element-wise comparison is
vacuous since `Statement` has no values. -/
def statementListBeq : List Statement → List Statement → Bool
  | [], [] => true
  | s :: _, _ => nomatch s
  | [], s :: _ => nomatch s

mutual

/-- Derived `PartialEq` on `Expression`: same variant tag and all payloads
recursively equal (with `f64` payloads compared by IEEE-754 `==`).  The
match on the second argument is nested so that each variant of the first
argument yields one equation. -/
def exprBeq : Expression → Expression → Bool
  | .This, e => match e with
      | .This => true
      | _ => false
  | .IdReference a, e => match e with
      | .IdReference b => decide (a = b)
      | _ => false
  | .Literal a, e => match e with
      | .Literal b => exprLiteralBeq a b
      | _ => false
  | .ArrayLiteral a, e => match e with
      | .ArrayLiteral b => exprListBeq a b
      | _ => false
  | .ObjectLiteral a, e => match e with
      | .ObjectLiteral b => propListBeq a b
      | _ => false
  | .Function id p body a g, e => match e with
      | .Function id' p' body' a' g' =>
          decide (id = id') && decide (p = p') && statementListBeq body body' &&
          decide (a = a') && decide (g = g')
      | _ => false
  | .RegexLiteral a, e => match e with
      | .RegexLiteral b => decide (a = b)
      | _ => false
  | .TemplateLiteral a, e => match e with
      | .TemplateLiteral b => tleListBeq a b
      | _ => false
  | .Spread a, e => match e with
      | .Spread b => exprBeq a b
      | _ => false
  | .Member l r c, e => match e with
      | .Member l' r' c' => exprBeq l l' && exprBeq r r' && decide (c = c')
      | _ => false
  | .Super, e => match e with
      | .Super => true
      | _ => false
  | .MetaProperty, e => match e with
      | .MetaProperty => true
      | _ => false
  | .New c args, e => match e with
      | .New c' args' => exprBeq c c' && exprListBeq args args'
      | _ => false
  | .Call c args, e => match e with
      | .Call c' args' => exprBeq c c' && exprListBeq args args'
      | _ => false
  | .TaggedTemplate t q, e => match e with
      | .TaggedTemplate t' q' => exprBeq t t' && exprBeq q q'
      | _ => false
  | .Update o a p, e => match e with
      | .Update o' a' p' => decide (o = o') && exprBeq a a' && decide (p = p')
      | _ => false
  | .Unary o a, e => match e with
      | .Unary o' a' => decide (o = o') && exprBeq a a'
      | _ => false
  | .Binary o l r, e => match e with
      | .Binary o' l' r' => decide (o = o') && exprBeq l l' && exprBeq r r'
      | _ => false
  | .Conditional t a c, e => match e with
      | .Conditional t' a' c' => exprBeq t t' && exprBeq a a' && exprBeq c c'
      | _ => false
  | .Assignment o l r, e => match e with
      | .Assignment o' l' r' => decide (o = o') && exprBeq l l' && exprBeq r r'
      | _ => false
  | .Yield a d, e => match e with
      | .Yield a' d' => optExprBeq a a' && decide (d = d')
      | _ => false
  | .Comma a, e => match e with
      | .Comma b => exprListBeq a b
      | _ => false
  | .JsxElement n attrs ch, e => match e with
      | .JsxElement n' attrs' ch' =>
          decide (n = n') && jsxAttrListBeq attrs attrs' && exprListBeq ch ch'
      | _ => false
  | .JsxFragment a, e => match e with
      | .JsxFragment b => exprListBeq a b
      | _ => false

/-- Derived `PartialEq` on `Vec<Expression>`: same length, element-wise. -/
def exprListBeq : List Expression → List Expression → Bool
  | [], [] => true
  | a :: as, b :: bs => exprBeq a b && exprListBeq as bs
  | _, _ => false

/-- Derived `PartialEq` on `Option<Box<Expression>>`. -/
def optExprBeq : Option Expression → Option Expression → Bool
  | none, none => true
  | some a, some b => exprBeq a b
  | _, _ => false

/-- Derived `PartialEq` on `Property`: field-wise. -/
def propBeq : Property → Property → Bool
  | .mk k v kind, .mk k' v' kind' =>
      exprBeq k k' && exprBeq v v' && decide (kind = kind')

/-- Derived `PartialEq` on `Vec<Property>`. -/
def propListBeq : List Property → List Property → Bool
  | [], [] => true
  | a :: as, b :: bs => propBeq a b && propListBeq as bs
  | _, _ => false

/-- Derived `PartialEq` on `TemplateLiteralElement`. -/
def tleBeq : TemplateLiteralElement → TemplateLiteralElement → Bool
  | .TemplateElement a, .TemplateElement b => decide (a = b)
  | .Expression a, .Expression b => exprBeq a b
  | _, _ => false

/-- Derived `PartialEq` on `Vec<TemplateLiteralElement>`. -/
def tleListBeq : List TemplateLiteralElement → List TemplateLiteralElement → Bool
  | [], [] => true
  | a :: as, b :: bs => tleBeq a b && tleListBeq as bs
  | _, _ => false

/-- Derived `PartialEq` on `JsxAttribute`. -/
def jsxAttrBeq : JsxAttribute → JsxAttribute → Bool
  | .JsxSpreadAttribute a, .JsxSpreadAttribute b => exprBeq a b
  | .JsxAttribute n v, .JsxAttribute n' v' => decide (n = n') && optExprBeq v v'
  | _, _ => false

/-- Derived `PartialEq` on `Vec<JsxAttribute>`. -/
def jsxAttrListBeq : List JsxAttribute → List JsxAttribute → Bool
  | [], [] => true
  | a :: as, b :: bs => jsxAttrBeq a b && jsxAttrListBeq as bs
  | _, _ => false

end

/-- Derived `Clone` on `Expression`: a deep copy, which at the value level
is the identity (the clone is built from equal payloads bottom-up). -/
def clone (e : Expression) : Expression := e

/-- A literal is NaN-free when it is not a NaN `NumberLiteral`. -/
def nanFreeLiteral : ExpressionLiteral → Bool
  | .NumberLiteral f => !f.isNaN
  | _ => true

mutual

/-- No NaN `NumberLiteral` payload occurs anywhere in the expression. -/
def nanFreeExpr : Expression → Bool
  | .This => true
  | .IdReference _ => true
  | .Literal lit => nanFreeLiteral lit
  | .ArrayLiteral es => nanFreeList es
  | .ObjectLiteral ps => nanFreeProps ps
  | .Function _ _ _ _ _ => true
  | .RegexLiteral _ => true
  | .TemplateLiteral es => nanFreeTLEs es
  | .Spread e => nanFreeExpr e
  | .Member l r _ => nanFreeExpr l && nanFreeExpr r
  | .Super => true
  | .MetaProperty => true
  | .New c args => nanFreeExpr c && nanFreeList args
  | .Call c args => nanFreeExpr c && nanFreeList args
  | .TaggedTemplate t q => nanFreeExpr t && nanFreeExpr q
  | .Update _ a _ => nanFreeExpr a
  | .Unary _ a => nanFreeExpr a
  | .Binary _ l r => nanFreeExpr l && nanFreeExpr r
  | .Conditional t a c => nanFreeExpr t && nanFreeExpr a && nanFreeExpr c
  | .Assignment _ l r => nanFreeExpr l && nanFreeExpr r
  | .Yield a _ => nanFreeOpt a
  | .Comma es => nanFreeList es
  | .JsxElement _ attrs ch => nanFreeAttrs attrs && nanFreeList ch
  | .JsxFragment ch => nanFreeList ch

/-- NaN-freeness of an expression list. -/
def nanFreeList : List Expression → Bool
  | [] => true
  | e :: es => nanFreeExpr e && nanFreeList es

/-- NaN-freeness of an optional expression. -/
def nanFreeOpt : Option Expression → Bool
  | none => true
  | some e => nanFreeExpr e

/-- NaN-freeness of a property (its key and value). -/
def nanFreeProp : Property → Bool
  | .mk k v _ => nanFreeExpr k && nanFreeExpr v

/-- NaN-freeness of a property list. -/
def nanFreeProps : List Property → Bool
  | [] => true
  | p :: ps => nanFreeProp p && nanFreeProps ps

/-- NaN-freeness of a template-literal element. -/
def nanFreeTLE : TemplateLiteralElement → Bool
  | .TemplateElement _ => true
  | .Expression e => nanFreeExpr e

/-- NaN-freeness of a template-literal element list. -/
def nanFreeTLEs : List TemplateLiteralElement → Bool
  | [] => true
  | t :: ts => nanFreeTLE t && nanFreeTLEs ts

/-- NaN-freeness of a JSX attribute. -/
def nanFreeAttr : JsxAttribute → Bool
  | .JsxSpreadAttribute e => nanFreeExpr e
  | .JsxAttribute _ v => nanFreeOpt v

/-- NaN-freeness of a JSX attribute list. -/
def nanFreeAttrs : List JsxAttribute → Bool
  | [] => true
  | a :: as => nanFreeAttr a && nanFreeAttrs as

end

theorem exprLiteralBeq_refl (l : ExpressionLiteral) (h : nanFreeLiteral l = true) :
    exprLiteralBeq l l = true := by
  cases l with
  | NullLiteral lit => simp [exprLiteralBeq]
  | BooleanLiteral lit => simp [exprLiteralBeq]
  | NumberLiteral lit =>
      simp [nanFreeLiteral] at h
      simp [exprLiteralBeq, F64.beq, h]
  | StringLiteral lit => simp [exprLiteralBeq]

theorem statementListBeq_refl (l : List Statement) : statementListBeq l l = true := by
  cases l with
  | nil => simp [statementListBeq]
  | cons s _ => exact nomatch s

mutual

theorem exprBeq_refl : ∀ (e : Expression), nanFreeExpr e = true → exprBeq e e = true
  | .This, _ => by simp [exprBeq]
  | .IdReference a, _ => by simp [exprBeq]
  | .Literal lit, h => by
      simp only [nanFreeExpr] at h
      simp [exprBeq, exprLiteralBeq_refl lit h]
  | .ArrayLiteral es, h => by
      simp only [nanFreeExpr] at h
      simp [exprBeq, exprListBeq_refl es h]
  | .ObjectLiteral ps, h => by
      simp only [nanFreeExpr] at h
      simp [exprBeq, propListBeq_refl ps h]
  | .Function id p body a g, _ => by
      simp [exprBeq, statementListBeq_refl body]
  | .RegexLiteral r, _ => by simp [exprBeq]
  | .TemplateLiteral es, h => by
      simp only [nanFreeExpr] at h
      simp [exprBeq, tleListBeq_refl es h]
  | .Spread e, h => by
      simp only [nanFreeExpr] at h
      simp [exprBeq, exprBeq_refl e h]
  | .Member l r c, h => by
      simp only [nanFreeExpr, Bool.and_eq_true] at h
      simp [exprBeq, exprBeq_refl l h.1, exprBeq_refl r h.2]
  | .Super, _ => by simp [exprBeq]
  | .MetaProperty, _ => by simp [exprBeq]
  | .New c args, h => by
      simp only [nanFreeExpr, Bool.and_eq_true] at h
      simp [exprBeq, exprBeq_refl c h.1, exprListBeq_refl args h.2]
  | .Call c args, h => by
      simp only [nanFreeExpr, Bool.and_eq_true] at h
      simp [exprBeq, exprBeq_refl c h.1, exprListBeq_refl args h.2]
  | .TaggedTemplate t q, h => by
      simp only [nanFreeExpr, Bool.and_eq_true] at h
      simp [exprBeq, exprBeq_refl t h.1, exprBeq_refl q h.2]
  | .Update o a p, h => by
      simp only [nanFreeExpr] at h
      simp [exprBeq, exprBeq_refl a h]
  | .Unary o a, h => by
      simp only [nanFreeExpr] at h
      simp [exprBeq, exprBeq_refl a h]
  | .Binary o l r, h => by
      simp only [nanFreeExpr, Bool.and_eq_true] at h
      simp [exprBeq, exprBeq_refl l h.1, exprBeq_refl r h.2]
  | .Conditional t a c, h => by
      simp only [nanFreeExpr, Bool.and_eq_true] at h
      simp [exprBeq, exprBeq_refl t h.1.1, exprBeq_refl a h.1.2, exprBeq_refl c h.2]
  | .Assignment o l r, h => by
      simp only [nanFreeExpr, Bool.and_eq_true] at h
      simp [exprBeq, exprBeq_refl l h.1, exprBeq_refl r h.2]
  | .Yield a d, h => by
      simp only [nanFreeExpr] at h
      simp [exprBeq, optExprBeq_refl a h]
  | .Comma es, h => by
      simp only [nanFreeExpr] at h
      simp [exprBeq, exprListBeq_refl es h]
  | .JsxElement n attrs ch, h => by
      simp only [nanFreeExpr, Bool.and_eq_true] at h
      simp [exprBeq, jsxAttrListBeq_refl attrs h.1, exprListBeq_refl ch h.2]
  | .JsxFragment ch, h => by
      simp only [nanFreeExpr] at h
      simp [exprBeq, exprListBeq_refl ch h]

theorem exprListBeq_refl : ∀ (es : List Expression), nanFreeList es = true →
    exprListBeq es es = true
  | [], _ => by simp [exprListBeq]
  | e :: es, h => by
      simp only [nanFreeList, Bool.and_eq_true] at h
      simp [exprListBeq, exprBeq_refl e h.1, exprListBeq_refl es h.2]

theorem optExprBeq_refl : ∀ (a : Option Expression), nanFreeOpt a = true →
    optExprBeq a a = true
  | none, _ => by simp [optExprBeq]
  | some e, h => by
      simp only [nanFreeOpt] at h
      simp [optExprBeq, exprBeq_refl e h]

theorem propBeq_refl : ∀ (p : Property), nanFreeProp p = true → propBeq p p = true
  | .mk k v kind, h => by
      simp only [nanFreeProp, Bool.and_eq_true] at h
      simp [propBeq, exprBeq_refl k h.1, exprBeq_refl v h.2]

theorem propListBeq_refl : ∀ (ps : List Property), nanFreeProps ps = true →
    propListBeq ps ps = true
  | [], _ => by simp [propListBeq]
  | p :: ps, h => by
      simp only [nanFreeProps, Bool.and_eq_true] at h
      simp [propListBeq, propBeq_refl p h.1, propListBeq_refl ps h.2]

theorem tleBeq_refl : ∀ (t : TemplateLiteralElement), nanFreeTLE t = true →
    tleBeq t t = true
  | .TemplateElement a, _ => by simp [tleBeq]
  | .Expression e, h => by
      simp only [nanFreeTLE] at h
      simp [tleBeq, exprBeq_refl e h]

theorem tleListBeq_refl : ∀ (ts : List TemplateLiteralElement), nanFreeTLEs ts = true →
    tleListBeq ts ts = true
  | [], _ => by simp [tleListBeq]
  | t :: ts, h => by
      simp only [nanFreeTLEs, Bool.and_eq_true] at h
      simp [tleListBeq, tleBeq_refl t h.1, tleListBeq_refl ts h.2]

theorem jsxAttrBeq_refl : ∀ (a : JsxAttribute), nanFreeAttr a = true →
    jsxAttrBeq a a = true
  | .JsxSpreadAttribute e, h => by
      simp only [nanFreeAttr] at h
      simp [jsxAttrBeq, exprBeq_refl e h]
  | .JsxAttribute n v, h => by
      simp only [nanFreeAttr] at h
      simp [jsxAttrBeq, optExprBeq_refl v h]

theorem jsxAttrListBeq_refl : ∀ (as : List JsxAttribute), nanFreeAttrs as = true →
    jsxAttrListBeq as as = true
  | [], _ => by simp [jsxAttrListBeq]
  | a :: as, h => by
      simp only [nanFreeAttrs, Bool.and_eq_true] at h
      simp [jsxAttrListBeq, jsxAttrBeq_refl a h.1, jsxAttrListBeq_refl as h.2]

end

/-- Every `BinaryOperator` variant, in source declaration order. -/
def allBinaryOperators : List BinaryOperator :=
  [.EqEq, .NotEq, .EqEqEq, .NotEqEq, .Lt, .Lte, .Gt, .Gte, .Shl, .Shr,
   .UnsignedShr, .Plus, .Minus, .Multiply, .Divide, .Mod, .BitwiseOr, .Or,
   .BitwiseXor, .BitwiseAnd, .And, .In, .InstanceOf, .Exponentiation]

/-- The equality operators (`==`, `!=`, `===`, `!==`). -/
def equalityOperators : List BinaryOperator := [.EqEq, .NotEq, .EqEqEq, .NotEqEq]

/-- The relational operators (`<`, `<=`, `>`, `>=`). -/
def relationalOperators : List BinaryOperator := [.Lt, .Lte, .Gt, .Gte]

/-- The shift operators (`<<`, `>>`, `>>>`). -/
def shiftOperators : List BinaryOperator := [.Shl, .Shr, .UnsignedShr]

/-- The arithmetic operators (`+`, `-`, `*`, `/`, `%`). -/
def arithmeticOperators : List BinaryOperator :=
  [.Plus, .Minus, .Multiply, .Divide, .Mod]

/-- The bitwise operators (`|`, `^`, `&`). -/
def bitwiseOperators : List BinaryOperator := [.BitwiseOr, .BitwiseXor, .BitwiseAnd]

/-- The logical operators (`||`, `&&`). -/
def logicalOperators : List BinaryOperator := [.Or, .And]

instance : Fintype BinaryOperator where
  elems := ⟨↑allBinaryOperators, by decide⟩
  complete := fun op => by cases op <;> decide

/-- Every `AssignmentOperator` variant, in source declaration order. -/
def allAssignmentOperators : List AssignmentOperator :=
  [.Eq, .PlusEq, .MinusEq, .MultiplyEq, .DivideEq, .ModEq, .ShlEq, .ShrEq,
   .UnsignedShrEq, .BitwiseOrEq, .BitwiseXorEq, .BitwiseAndEq]

/-- The compound assignment operators: every assignment operator except
plain `=`. -/
def compoundAssignmentOperators : List AssignmentOperator :=
  [.PlusEq, .MinusEq, .MultiplyEq, .DivideEq, .ModEq, .ShlEq, .ShrEq,
   .UnsignedShrEq, .BitwiseOrEq, .BitwiseXorEq, .BitwiseAndEq]

instance : Fintype AssignmentOperator where
  elems := ⟨↑allAssignmentOperators, by decide⟩
  complete := fun op => by cases op <;> decide

/-- Projection of the `test` field of a `Conditional` expression. -/
def Expression.test : Expression → Option Expression
  | .Conditional t _ _ => some t
  | _ => none

/-- Projection of the `alternate` field (the second `Conditional` payload,
documented as the branch returned when `test` is truthy). -/
def Expression.alternate : Expression → Option Expression
  | .Conditional _ a _ => some a
  | _ => none

/-- Projection of the `consequent` field (the third `Conditional` payload,
documented as the branch returned when `test` is falsy). -/
def Expression.consequent : Expression → Option Expression
  | .Conditional _ _ c => some c
  | _ => none

/-- Traversal of a `TemplateLiteral` expression: the interleaved element
sequence exactly as stored, in source order. -/
def templateElements : Expression → Option (List TemplateLiteralElement)
  | .TemplateLiteral es => some es
  | _ => none

/-- Hand-constructed tree for the template literal `x${y}z`: literal span
`x`, interpolated identifier `y`, literal span `z`, interleaved in source
order. -/
def templateXYZ : Expression :=
  .TemplateLiteral
    [.TemplateElement ⟨"x", "x"⟩,
     .Expression (.IdReference "y"),
     .TemplateElement ⟨"z", "z"⟩]

/-- C1 (counterexample): a `NumberLiteral` expression carrying NaN is not
equal to its own clone, because the derived `PartialEq` compares the `f64`
payload with IEEE-754 `==`, under which NaN is unequal to itself.  This
refutes `clone(n) == n` "for every possible f64 value". -/
theorem clone_nan_not_beq_self :
    exprBeq (clone (.Literal (.NumberLiteral F64.nan))) (.Literal (.NumberLiteral F64.nan))
      = false := by
  simp [clone, exprBeq, exprLiteralBeq, F64.beq, F64.nan]

/-- C1 (amended): equality on every AST node type is the derived structural
`PartialEq`, and `clone(n) == n` holds for every expression containing no
NaN `NumberLiteral` payload. -/
theorem clone_beq_self_of_nanFree (e : Expression) (h : nanFreeExpr e = true) :
    exprBeq (clone e) e = true :=
  exprBeq_refl e h

/-- C1 (witness): a concrete NaN-free expression equals its clone. -/
theorem clone_beq_self_of_nanFree_witness :
    nanFreeExpr (.Literal (.NumberLiteral F64.one)) = true ∧
    exprBeq (clone (.Literal (.NumberLiteral F64.one))) (.Literal (.NumberLiteral F64.one))
      = true :=
  ⟨by simp [nanFreeExpr, nanFreeLiteral, F64.one],
   clone_beq_self_of_nanFree _ (by simp [nanFreeExpr, nanFreeLiteral, F64.one])⟩

/-- C2: the `Conditional` variant has exactly three `Expression` payloads in
the order `test`, `alternate`, `consequent`; hand-constructing `a ? b : c`
puts `IdReference "a"` in `test`, `IdReference "b"` in `alternate` and
`IdReference "c"` in `consequent`; swapping the `alternate` and `consequent`
payloads of differing subtrees yields a structurally unequal tree. -/
theorem conditional_fields_and_swap :
    (Expression.Conditional (.IdReference "a") (.IdReference "b") (.IdReference "c")).test
      = some (.IdReference "a") ∧
    (Expression.Conditional (.IdReference "a") (.IdReference "b") (.IdReference "c")).alternate
      = some (.IdReference "b") ∧
    (Expression.Conditional (.IdReference "a") (.IdReference "b") (.IdReference "c")).consequent
      = some (.IdReference "c") ∧
    ∀ (t x y : Expression), exprBeq x y = false →
      exprBeq (.Conditional t x y) (.Conditional t y x) = false := by
  refine ⟨rfl, rfl, rfl, fun t x y h => ?_⟩
  simp [exprBeq, h]

/-- C2 (witness): swapping the branches of the hand-constructed `a ? b : c`
tree yields a structurally unequal tree. -/
theorem conditional_fields_and_swap_witness :
    exprBeq (.Conditional (.IdReference "a") (.IdReference "b") (.IdReference "c"))
        (.Conditional (.IdReference "a") (.IdReference "c") (.IdReference "b")) = false :=
  conditional_fields_and_swap.2.2.2 _ _ _ (by simp [exprBeq])

/-- C3 (counterexample): `BinaryOperator` has 24 variants, not 22. -/
theorem binaryOperator_card_not_22 : (Fintype.card BinaryOperator = 22) = False :=
  eq_false (by decide)

/-- C3 (amended): `BinaryOperator` is a closed, payload-free tag set with
exactly 24 variants: 4 equality, 4 relational, 3 shift, 5 arithmetic,
3 bitwise and 2 logical operators, plus `in`, `instanceof` and
exponentiation (4+4+3+5+3+2+3 = 24). -/
theorem binaryOperator_tag_set :
    allBinaryOperators.length = 24 ∧
    allBinaryOperators.Nodup ∧
    (∀ op : BinaryOperator, op ∈ allBinaryOperators) ∧
    equalityOperators.length = 4 ∧
    relationalOperators.length = 4 ∧
    shiftOperators.length = 3 ∧
    arithmeticOperators.length = 5 ∧
    bitwiseOperators.length = 3 ∧
    logicalOperators.length = 2 ∧
    List.Perm
      (equalityOperators ++ relationalOperators ++ shiftOperators ++
        arithmeticOperators ++ bitwiseOperators ++ logicalOperators ++
        [BinaryOperator.In, BinaryOperator.InstanceOf, BinaryOperator.Exponentiation])
      allBinaryOperators :=
  ⟨by decide, by decide, fun op => by cases op <;> decide, by decide, by decide,
   by decide, by decide, by decide, by decide, by decide⟩

/-- C4 (counterexample): `AssignmentOperator` has 12 variants, not 11. -/
theorem assignmentOperator_card_not_11 : (Fintype.card AssignmentOperator = 11) = False :=
  eq_false (by decide)

/-- C4 (amended): `AssignmentOperator` is a closed, payload-free tag set
with exactly 12 variants — plain `=` plus the 11 compound assignment
operators — and the `Assignment` expression variant accepts any
`Expression` whatsoever as its `lhs`. -/
theorem assignmentOperator_tag_set :
    allAssignmentOperators.length = 12 ∧
    allAssignmentOperators.Nodup ∧
    (∀ op : AssignmentOperator, op ∈ allAssignmentOperators) ∧
    compoundAssignmentOperators.length = 11 ∧
    allAssignmentOperators = AssignmentOperator.Eq :: compoundAssignmentOperators ∧
    (∀ (op : AssignmentOperator) (lhs rhs : Expression),
      ∃ e : Expression, e = .Assignment op lhs rhs) :=
  ⟨by decide, by decide, fun op => by cases op <;> decide, by decide, by decide,
   fun op lhs rhs => ⟨_, rfl⟩⟩

/-- C5: `Statement` is an empty closed sum — no `Statement` value exists —
so every constructible `Program` has an empty body and every constructible
`Function` expression has an empty body. -/
theorem statement_uninhabited :
    IsEmpty Statement ∧
    (∀ p : Program, p.body = []) ∧
    (∀ (id : Option Id) (params : List Id) (body : List Statement) (a g : Bool),
      Expression.Function id params body a g = Expression.Function id params [] a g) := by
  refine ⟨⟨fun s => nomatch s⟩, fun p => ?_, fun id params body a g => ?_⟩
  · cases p with
    | mk st body =>
        cases body with
        | nil => rfl
        | cons s _ => exact nomatch s
  · cases body with
    | nil => rfl
    | cons s _ => exact nomatch s

/-- C6: for every update operator and argument, the prefix and postfix
`Update` trees are structurally unequal — the prefix/postfix distinction is
carried explicitly in the node. -/
theorem update_prefix_distinguishes :
    ∀ (op : UpdateOperator) (a : Expression),
      exprBeq (.Update op a true) (.Update op a false) = false := by
  intro op a
  simp [exprBeq]

/-- C7: a `TemplateLiteral` stores its element sequence exactly as given —
traversal returns the same elements in the same source order with no
pre-splitting into quasis and expressions — and the hand-constructed tree
for `x${y}z` is the three-element interleaving of span `x`, expression `y`,
span `z`. -/
theorem templateLiteral_preserves_elements :
    (∀ es : List TemplateLiteralElement,
      templateElements (.TemplateLiteral es) = some es) ∧
    templateElements templateXYZ =
      some [.TemplateElement ⟨"x", "x"⟩,
            .Expression (.IdReference "y"),
            .TemplateElement ⟨"z", "z"⟩] :=
  ⟨fun es => rfl, rfl⟩

/-- C8: the tree type permits grammatically illegal combinations at
construction time — `TaggedTemplate` accepts any expression as its quasi
(including a null literal), and `Yield` is constructible with no enclosing
generator context. -/
theorem illegal_trees_constructible :
    (∀ t q : Expression, ∃ e : Expression, e = .TaggedTemplate t q) ∧
    (∃ e : Expression,
      e = .TaggedTemplate (.IdReference "tag") (.Literal (.NullLiteral ⟨⟩))) ∧
    (∀ (arg : Option Expression) (d : Bool), ∃ e : Expression, e = .Yield arg d) :=
  ⟨fun t q => ⟨_, rfl⟩, ⟨_, rfl⟩, fun arg d => ⟨_, rfl⟩⟩

/-- C9: `Comma` accepts any expression sequence including the empty one —
`Comma []` is a constructible expression — and the empty `Comma` is
structurally unequal to every non-empty `Comma`. -/
theorem comma_empty_constructible :
    (∃ e : Expression, e = .Comma []) ∧
    (∀ (x : Expression) (xs : List Expression),
      exprBeq (.Comma []) (.Comma (x :: xs)) = false) :=
  ⟨⟨_, rfl⟩, fun x xs => by simp [exprBeq, exprListBeq]⟩

/-- C10: `Yield` with no argument and `delegate = true` is constructible —
a delegating `yield *` with no operand — and for every optional argument,
the delegating and non-delegating `Yield` trees are structurally unequal. -/
theorem yield_delegate_distinguishes :
    (∃ e : Expression, e = .Yield none true) ∧
    (∀ arg : Option Expression,
      exprBeq (.Yield arg true) (.Yield arg false) = false) :=
  ⟨⟨_, rfl⟩, fun arg => by simp [exprBeq]⟩

end ES
